import Mathlib

/-
Verification of the coolprop_oop state-constraint manager
(src/coolprop_oop/coolprop_oop.py) against its design specification.

The Python module is embedded shallowly:
  - numeric values are modelled as rationals (the claims under study are
    control-flow properties of the constraint machinery, not floating-point
    rounding facts);
  - the external CoolProp functions HAPropsSI and PropsSI are modelled as an
    oracle parameter returning Except String Rat;
  - Python exceptions are modelled as an explicit error component: a setter
    returns the post-exception state together with an optional error, so a
    raise that happened after a partial mutation would be visible;
  - getter functions additionally return the number of oracle invocations
    they perform, so caching behaviour is observable;
  - error message strings are abbreviated (ASCII) versions of the source
    messages; the error constructor mirrors the Python exception class.
-/

/-- Values a caller can pass to a property setter: a number, or anything
else (which the isinstance check of the validators rejects). -/
inductive PyVal where
  | num (q : ℚ)
  | nonNum
deriving DecidableEq, Repr

/-- Python exceptions raised by the embedded code. -/
inductive PyErr where
  | typeError (msg : String)
  | valueError (msg : String)
  | keyError (key : String)
  | zeroDivisionError
  | indexError
deriving DecidableEq, Repr

/-- Models str(e) as used when state_setter_ha and state_setter_PROPS wrap a
caught exception into a new ValueError message. -/
def errStr : PyErr → String
  | .typeError m => m
  | .valueError m => m
  | .keyError k => k
  | .zeroDivisionError => "division by zero"
  | .indexError => "list index out of range"

/-- Association-list lookup, modelling a Python dict lookup d[k] where a
missing key raises KeyError (the none result here). -/
def lookupMap : List (String × String) → String → Option String
  | [], _ => none
  | (k, v) :: rest, key => if key = k then some v else lookupMap rest key

/-- Models set.add: the constraint-name sets of both state classes. -/
def insertC (n : String) (c : List String) : List String :=
  if n ∈ c then c else n :: c

/-- The instance attributes of class StateHA: the fifteen stored property
slots initialised to None in StateHA.__init__, plus the set
self constraints_set of currently pinned property names.  There is no
version attribute: __init__ creates none, and no method ever writes one. -/
structure StateHA where
  tempk : Option ℚ
  tempc : Option ℚ
  press : Option ℚ
  humrat : Option ℚ
  wetbulb : Option ℚ
  relhum : Option ℚ
  vol : Option ℚ
  enthalpy : Option ℚ
  entropy : Option ℚ
  dewpoint : Option ℚ
  density : Option ℚ
  cp : Option ℚ
  viscosity : Option ℚ
  conductivity : Option ℚ
  prandtl : Option ℚ
  constraints_set : List String
deriving DecidableEq, Repr

/-- A freshly constructed StateHA(): every slot None, no pins. -/
def emptyHA : StateHA :=
  { tempk := none, tempc := none, press := none, humrat := none
    wetbulb := none, relhum := none, vol := none, enthalpy := none
    entropy := none, dewpoint := none, density := none, cp := none
    viscosity := none, conductivity := none, prandtl := none
    constraints_set := [] }

/-- StateHA prop_map: property name to CoolProp code. -/
def haPropMap : List (String × String) :=
  [("tempk", "T"), ("tempc", "T"), ("press", "P"), ("humrat", "W"),
   ("wetbulb", "B"), ("relhum", "R"), ("dewpoint", "D"), ("vol", "V"),
   ("enthalpy", "H"), ("entropy", "S"), ("density", "D"), ("cp", "C"),
   ("viscosity", "M"), ("conductivity", "K"), ("prandtl", "L")]

/-- The fifteen property names of StateHA that have a decorated setter. -/
def haNames : List String :=
  ["tempk", "tempc", "press", "humrat", "wetbulb", "relhum", "vol",
   "enthalpy", "entropy", "dewpoint", "density", "cp", "viscosity",
   "conductivity", "prandtl"]

/-- Models getattr(self, underscore-name) for the fifteen stored slots. -/
def haAttr (s : StateHA) : String → Option ℚ
  | "tempk" => s.tempk
  | "tempc" => s.tempc
  | "press" => s.press
  | "humrat" => s.humrat
  | "wetbulb" => s.wetbulb
  | "relhum" => s.relhum
  | "vol" => s.vol
  | "enthalpy" => s.enthalpy
  | "entropy" => s.entropy
  | "dewpoint" => s.dewpoint
  | "density" => s.density
  | "cp" => s.cp
  | "viscosity" => s.viscosity
  | "conductivity" => s.conductivity
  | "prandtl" => s.prandtl
  | _ => none

/-- Range checks of the validate_input_ha decorator, per property name
(the isinstance type check of the same decorator is modelled in haFunc,
where the PyVal is inspected before these checks run). -/
def validate_input_ha (name : String) (q : ℚ) : Option PyErr :=
  if name = "tempk" ∨ name = "wetbulb" ∨ name = "dewpoint" then
    if q ≤ 0 then some (.valueError (name ++ " must be above absolute zero"))
    else if q > 473.15 then some (.valueError (name ++ " exceeding reasonable range (> 200 C)"))
    else none
  else if name = "tempc" then
    if q < -273.15 then some (.valueError "Temperature cannot be below absolute zero")
    else if q > 200 then some (.valueError "Temperature exceeding reasonable range (> 200 C)")
    else none
  else if name = "press" then
    if q ≤ 0 then some (.valueError "Pressure must be positive")
    else if q < 1000 then some (.valueError "Pressure below reasonable range (< 1 kPa)")
    else if q > 10000000 then some (.valueError "Pressure exceeding reasonable range (> 100 bar)")
    else none
  else if name = "relhum" then
    if q < 0 then some (.valueError "Relative humidity cannot be negative")
    else if q > 1 then some (.valueError "Relative humidity cannot exceed 1 (100 percent)")
    else none
  else if name = "humrat" then
    if q < 0 then some (.valueError "Humidity ratio cannot be negative")
    else if q > 1 then some (.valueError "Humidity ratio exceeding reasonable range (> 1 kg/kg)")
    else none
  else if name = "vol" then
    if q ≤ 0 then some (.valueError "Specific volume must be positive")
    else if q > 1000 then some (.valueError "Specific volume exceeding reasonable range (> 1000 m3/kg)")
    else none
  else if name = "enthalpy" then
    if |q| > 10000000 then some (.valueError "Enthalpy exceeding reasonable range")
    else none
  else if name = "entropy" then
    if |q| > 100000 then some (.valueError "Entropy exceeding reasonable range")
    else none
  else if name = "density" then
    if q ≤ 0 then some (.valueError "Density must be positive")
    else if q > 50 then some (.valueError "Density exceeding reasonable range (> 50 kg/m3)")
    else none
  else if name = "cp" then
    if q ≤ 0 then some (.valueError "Specific heat capacity must be positive")
    else if q > 10000 then some (.valueError "Specific heat capacity exceeding reasonable range")
    else none
  else if name = "viscosity" then
    if q ≤ 0 then some (.valueError "Viscosity must be positive")
    else if q > 1 then some (.valueError "Viscosity exceeding reasonable range (> 1 Pa s)")
    else none
  else if name = "conductivity" then
    if q ≤ 0 then some (.valueError "Thermal conductivity must be positive")
    else if q > 1 then some (.valueError "Thermal conductivity exceeding reasonable range (> 1 W/m-K)")
    else none
  else if name = "prandtl" then
    if q ≤ 0 then some (.valueError "Prandtl number must be positive")
    else if q > 1000 then some (.valueError "Prandtl number exceeding reasonable range (> 1000)")
    else none
  else none

/-- The undecorated setter bodies of StateHA.  Each body stores the value
in its slot; the tempc body additionally stores value plus 273.15 in the
tempk slot, and the vol body re-checks its range before storing (returning
the untouched state together with the raised error when a check fires). -/
def haSetterBody (name : String) (q : ℚ) (s : StateHA) : StateHA × Option PyErr :=
  match name with
  | "tempk" => ({ s with tempk := some q }, none)
  | "tempc" => ({ s with tempc := some q, tempk := some (q + 273.15) }, none)
  | "press" => ({ s with press := some q }, none)
  | "humrat" => ({ s with humrat := some q }, none)
  | "wetbulb" => ({ s with wetbulb := some q }, none)
  | "relhum" => ({ s with relhum := some q }, none)
  | "vol" =>
    if q ≤ 0 then (s, some (.valueError "Specific volume must be positive"))
    else if q > 1000 then (s, some (.valueError "Specific volume exceeding reasonable range (> 1000 m3/kg)"))
    else ({ s with vol := some q }, none)
  | "enthalpy" => ({ s with enthalpy := some q }, none)
  | "entropy" => ({ s with entropy := some q }, none)
  | "dewpoint" => ({ s with dewpoint := some q }, none)
  | "density" => ({ s with density := some q }, none)
  | "cp" => ({ s with cp := some q }, none)
  | "viscosity" => ({ s with viscosity := some q }, none)
  | "conductivity" => ({ s with conductivity := some q }, none)
  | "prandtl" => ({ s with prandtl := some q }, none)
  | _ => (s, none)

/-- The function that state_setter_ha receives as func: the setter body
already wrapped by validate_input_ha, whose isinstance type check runs
first, then the range checks, then the body. -/
def haFunc (name : String) (v : PyVal) (s : StateHA) : StateHA × Option PyErr :=
  match v with
  | .nonNum => (s, some (.typeError (name ++ " must be a number")))
  | .num q =>
    match validate_input_ha name q with
    | some e => (s, some e)
    | none => haSetterBody name q s

/-- The state_setter_ha decorator: if fewer than two pins exist or the name
is already pinned, run func and pin the name; otherwise run func inside
try, pin on success, and on failure re-raise the caught exception wrapped
as ValueError Cannot set name.  No branch consults HAPropsSI or
test_state_validity. -/
def state_setter_ha (s : StateHA) (name : String) (v : PyVal) : StateHA × Option PyErr :=
  if s.constraints_set.length < 2 ∨ name ∈ s.constraints_set then
    match haFunc name v s with
    | (s', none) => ({ s' with constraints_set := insertC name s'.constraints_set }, none)
    | (s', some e) => (s', some e)
  else
    match haFunc name v s with
    | (s', none) => ({ s' with constraints_set := insertC name s'.constraints_set }, none)
    | (s', some e) => (s', some (.valueError ("Cannot set " ++ name ++ " - " ++ errStr e)))

/-- The external HAPropsSI function: an output code and a flat list of
input code and value pairs, returning a value or raising ValueError with a
diagnostic message. -/
def OracleHA : Type := String → List (String × ℚ) → Except String ℚ

/-- Builds the CoolProp argument list that StateHA.get_prop,
StateProps.get_prop and the two test_state_validity methods assemble from
a list of constraint names: for each name, the prop_map dict lookup
(KeyError when the name is absent), the stored attribute (a stored None
would make the external call fail), and the Celsius conversion applied to
a tempc entry. -/
def buildTrial (attr : String → Option ℚ) (pmap : List (String × String)) :
    List String → Except PyErr (List (String × ℚ))
  | [] => .ok []
  | c :: cs =>
    match lookupMap pmap c with
    | none => .error (.keyError c)
    | some code =>
      match attr c with
      | none => .error (.typeError (c ++ " is None"))
      | some q =>
        match buildTrial attr pmap cs with
        | .error e => .error e
        | .ok rest => .ok ((code, if c = "tempc" then q + 273.15 else q) :: rest)

/-- StateHA.get_prop: refuses when fewer than three constraints are
pinned, then builds the argument list from the constraint set and invokes
HAPropsSI once.  The second component counts oracle invocations. -/
def StateHA.get_prop (oracle : OracleHA) (s : StateHA) (prop : String) :
    Except PyErr ℚ × Nat :=
  if s.constraints_set.length < 3 then
    (.error (.valueError "Cannot calculate properties until state is fully defined with 3 constraints"), 0)
  else
    match buildTrial (haAttr s) haPropMap s.constraints_set with
    | .error e => (.error e, 0)
    | .ok props =>
      match oracle prop props with
      | .ok v => (.ok v, 1)
      | .error m => (.error (.valueError m), 1)

/-- Shared shape of thirteen of the fifteen StateHA property getters: a
pinned name returns its stored slot, a state with exactly three pins
computes through get_prop, anything else returns the stored slot. -/
def haGetterStd (oracle : OracleHA) (s : StateHA) (name code : String)
    (attr : Option ℚ) : Except PyErr (Option ℚ) × Nat :=
  if name ∈ s.constraints_set then (.ok attr, 0)
  else if s.constraints_set.length = 3 then
    match StateHA.get_prop oracle s code with
    | (.ok v, n) => (.ok (some v), n)
    | (.error e, n) => (.error e, n)
  else (.ok attr, 0)

/-- StateHA.tempk getter. -/
def StateHA.tempk_get (oracle : OracleHA) (s : StateHA) : Except PyErr (Option ℚ) × Nat :=
  haGetterStd oracle s "tempk" "T" s.tempk

/-- Exception message of a Python subtraction applied to None. -/
def noneSubMsg : String := "unsupported operand type for minus: NoneType and float"

/-- StateHA.tempc getter: a pinned tempc returns its slot, a pinned tempk
returns the tempk slot minus 273.15, and otherwise the value flows through
the tempk getter; subtracting from a None value raises TypeError. -/
def StateHA.tempc_get (oracle : OracleHA) (s : StateHA) : Except PyErr (Option ℚ) × Nat :=
  if "tempc" ∈ s.constraints_set then (.ok s.tempc, 0)
  else if "tempk" ∈ s.constraints_set then
    match s.tempk with
    | some t => (.ok (some (t - 273.15)), 0)
    | none => (.error (.typeError noneSubMsg), 0)
  else
    match StateHA.tempk_get oracle s with
    | (.ok (some t), n) => (.ok (some (t - 273.15)), n)
    | (.ok none, n) => (.error (.typeError noneSubMsg), n)
    | (.error e, n) => (.error e, n)

/-- StateHA.press getter. -/
def StateHA.press_get (oracle : OracleHA) (s : StateHA) : Except PyErr (Option ℚ) × Nat :=
  haGetterStd oracle s "press" "P" s.press

/-- StateHA.relhum getter. -/
def StateHA.relhum_get (oracle : OracleHA) (s : StateHA) : Except PyErr (Option ℚ) × Nat :=
  haGetterStd oracle s "relhum" "R" s.relhum

/-- StateHA.humrat getter. -/
def StateHA.humrat_get (oracle : OracleHA) (s : StateHA) : Except PyErr (Option ℚ) × Nat :=
  haGetterStd oracle s "humrat" "W" s.humrat

/-- StateHA.wetbulb getter. -/
def StateHA.wetbulb_get (oracle : OracleHA) (s : StateHA) : Except PyErr (Option ℚ) × Nat :=
  haGetterStd oracle s "wetbulb" "B" s.wetbulb

/-- StateHA.dewpoint getter. -/
def StateHA.dewpoint_get (oracle : OracleHA) (s : StateHA) : Except PyErr (Option ℚ) × Nat :=
  haGetterStd oracle s "dewpoint" "D" s.dewpoint

/-- StateHA.vol getter. -/
def StateHA.vol_get (oracle : OracleHA) (s : StateHA) : Except PyErr (Option ℚ) × Nat :=
  haGetterStd oracle s "vol" "V" s.vol

/-- StateHA.enthalpy getter. -/
def StateHA.enthalpy_get (oracle : OracleHA) (s : StateHA) : Except PyErr (Option ℚ) × Nat :=
  haGetterStd oracle s "enthalpy" "H" s.enthalpy

/-- StateHA.entropy_getter. -/
def StateHA.entropy_get (oracle : OracleHA) (s : StateHA) : Except PyErr (Option ℚ) × Nat :=
  haGetterStd oracle s "entropy" "S" s.entropy

/-- StateHA.density getter: on a three-pin state it reads specific volume
from get_prop and returns its reciprocal (a zero volume would raise
ZeroDivisionError in the source division). -/
def StateHA.density_get (oracle : OracleHA) (s : StateHA) : Except PyErr (Option ℚ) × Nat :=
  if "density" ∈ s.constraints_set then (.ok s.density, 0)
  else if s.constraints_set.length = 3 then
    match StateHA.get_prop oracle s "V" with
    | (.ok v, n) => if v = 0 then (.error .zeroDivisionError, n) else (.ok (some (1 / v)), n)
    | (.error e, n) => (.error e, n)
  else (.ok s.density, 0)

/-- StateHA.cp getter. -/
def StateHA.cp_get (oracle : OracleHA) (s : StateHA) : Except PyErr (Option ℚ) × Nat :=
  haGetterStd oracle s "cp" "C" s.cp

/-- StateHA.viscosity getter. -/
def StateHA.viscosity_get (oracle : OracleHA) (s : StateHA) : Except PyErr (Option ℚ) × Nat :=
  haGetterStd oracle s "viscosity" "M" s.viscosity

/-- StateHA.conductivity getter. -/
def StateHA.conductivity_get (oracle : OracleHA) (s : StateHA) : Except PyErr (Option ℚ) × Nat :=
  haGetterStd oracle s "conductivity" "K" s.conductivity

/-- StateHA.prandtl getter. -/
def StateHA.prandtl_get (oracle : OracleHA) (s : StateHA) : Except PyErr (Option ℚ) × Nat :=
  haGetterStd oracle s "prandtl" "L" s.prandtl

/-- Attribute read dispatch over the fifteen StateHA properties,
modelling getattr(state, name); an unknown name raises AttributeError. -/
def readHA (oracle : OracleHA) (s : StateHA) : String → Except PyErr (Option ℚ) × Nat
  | "tempk" => StateHA.tempk_get oracle s
  | "tempc" => StateHA.tempc_get oracle s
  | "press" => StateHA.press_get oracle s
  | "relhum" => StateHA.relhum_get oracle s
  | "humrat" => StateHA.humrat_get oracle s
  | "wetbulb" => StateHA.wetbulb_get oracle s
  | "dewpoint" => StateHA.dewpoint_get oracle s
  | "vol" => StateHA.vol_get oracle s
  | "enthalpy" => StateHA.enthalpy_get oracle s
  | "entropy" => StateHA.entropy_get oracle s
  | "density" => StateHA.density_get oracle s
  | "cp" => StateHA.cp_get oracle s
  | "viscosity" => StateHA.viscosity_get oracle s
  | "conductivity" => StateHA.conductivity_get oracle s
  | "prandtl" => StateHA.prandtl_get oracle s
  | name => (.error (.typeError ("AttributeError: " ++ name)), 0)

/-- StateHA.test_state_validity: builds a trial list from current_props
plus the candidate pair, then asks HAPropsSI to resolve the code of the
first current property; success returns True, a ValueError is re-raised
with an Invalid state prefix.  No setter ever calls this method. -/
def StateHA.test_state_validity (oracle : OracleHA) (s : StateHA)
    (current_props : List String) (new_prop : String) (new_value : ℚ) :
    Except PyErr Bool :=
  match buildTrial (haAttr s) haPropMap current_props with
  | .error e => .error e
  | .ok tp =>
    match lookupMap haPropMap new_prop with
    | none => .error (.keyError new_prop)
    | some code =>
      match current_props with
      | [] => .error .indexError
      | c0 :: _ =>
        match lookupMap haPropMap c0 with
        | none => .error (.keyError c0)
        | some ip =>
          match oracle ip (tp ++ [(code, if new_prop = "tempc" then new_value + 273.15 else new_value)]) with
          | .ok _ => .ok true
          | .error m => .error (.valueError ("Invalid state: " ++ m))

/-- The instance attributes of class StateProps: the nine stored property
slots and the fluid name initialised to None in StateProps.__init__, plus
the set of pinned property names.  As with StateHA, no version attribute
exists. -/
structure StateProps where
  tempk : Option ℚ
  tempc : Option ℚ
  press : Option ℚ
  dens : Option ℚ
  enthalpy : Option ℚ
  entropy : Option ℚ
  quality : Option ℚ
  cp : Option ℚ
  cv : Option ℚ
  fluid : Option String
  constraints_set : List String
deriving DecidableEq, Repr

/-- A freshly constructed StateProps(): every slot None, no fluid, no pins. -/
def freshProps : StateProps :=
  { tempk := none, tempc := none, press := none, dens := none
    enthalpy := none, entropy := none, quality := none, cp := none
    cv := none, fluid := none, constraints_set := [] }

/-- StateProps prop_map: note that it has no entry for vol although vol
has a decorated setter. -/
def propsPropMap : List (String × String) :=
  [("tempk", "T"), ("tempc", "T"), ("press", "P"), ("dens", "D"),
   ("enthalpy", "H"), ("entropy", "S"), ("quality", "Q"), ("cp", "C"),
   ("cv", "O")]

/-- The ten property names of StateProps that have a decorated setter
(vol included). -/
def propsNames : List String :=
  ["tempk", "tempc", "press", "dens", "enthalpy", "entropy", "quality",
   "cp", "cv", "vol"]

/-- Models getattr(self, underscore-name) for the nine stored numeric
slots of StateProps (vol has no slot of its own: its setter stores into
dens). -/
def propsAttr (s : StateProps) : String → Option ℚ
  | "tempk" => s.tempk
  | "tempc" => s.tempc
  | "press" => s.press
  | "dens" => s.dens
  | "enthalpy" => s.enthalpy
  | "entropy" => s.entropy
  | "quality" => s.quality
  | "cp" => s.cp
  | "cv" => s.cv
  | _ => none

/-- Range checks of the validate_input_props decorator; names without a
branch in the source (vol among them) pass through unchecked. -/
def validate_input_props (name : String) (q : ℚ) : Option PyErr :=
  if name = "tempk" then
    if q ≤ 0 then some (.valueError (name ++ " must be above absolute zero"))
    else if q > 2000 then some (.valueError (name ++ " exceeding reasonable range (> 1726.85 C)"))
    else none
  else if name = "tempc" then
    if q < -273.15 then some (.valueError "Temperature cannot be below absolute zero")
    else if q > 1726.85 then some (.valueError "Temperature exceeding reasonable range (> 1726.85 C)")
    else none
  else if name = "press" then
    if q ≤ 0 then some (.valueError "Pressure must be positive")
    else if q > 1000000000 then some (.valueError "Pressure exceeding reasonable range (> 10000 bar)")
    else none
  else if name = "dens" then
    if q ≤ 0 then some (.valueError "Density must be positive")
    else if q > 100000 then some (.valueError "Density exceeding reasonable range (> 100000 kg/m3)")
    else none
  else if name = "quality" then
    if q < 0 ∨ q > 1 then some (.valueError "Quality must be between 0 and 1")
    else none
  else if name = "enthalpy" then
    if |q| > 100000000 then some (.valueError "Enthalpy exceeding reasonable range")
    else none
  else if name = "entropy" then
    if |q| > 1000000 then some (.valueError "Entropy exceeding reasonable range")
    else none
  else if name = "cp" then
    if q ≤ 0 then some (.valueError "Specific heat capacity at constant pressure must be positive")
    else if q > 100000 then some (.valueError "Specific heat capacity exceeding reasonable range")
    else none
  else if name = "cv" then
    if q ≤ 0 then some (.valueError "Specific heat capacity at constant volume must be positive")
    else if q > 100000 then some (.valueError "Specific heat capacity exceeding reasonable range")
    else none
  else none

/-- The undecorated setter bodies of StateProps.  The vol body re-checks
its range (validate_input_props has no vol branch) and stores the
reciprocal of the value into the dens slot. -/
def propsSetterBody (name : String) (q : ℚ) (s : StateProps) : StateProps × Option PyErr :=
  match name with
  | "tempk" => ({ s with tempk := some q }, none)
  | "tempc" => ({ s with tempc := some q, tempk := some (q + 273.15) }, none)
  | "press" => ({ s with press := some q }, none)
  | "dens" => ({ s with dens := some q }, none)
  | "enthalpy" => ({ s with enthalpy := some q }, none)
  | "entropy" => ({ s with entropy := some q }, none)
  | "quality" => ({ s with quality := some q }, none)
  | "cp" => ({ s with cp := some q }, none)
  | "cv" => ({ s with cv := some q }, none)
  | "vol" =>
    if q ≤ 0 then (s, some (.valueError "Specific volume must be positive"))
    else if q > 1000 then (s, some (.valueError "Specific volume exceeding reasonable range (> 1000 m3/kg)"))
    else ({ s with dens := some (1 / q) }, none)
  | _ => (s, none)

/-- The function that state_setter_PROPS receives as func: the setter body
wrapped by validate_input_props, type check first. -/
def propsFunc (name : String) (v : PyVal) (s : StateProps) : StateProps × Option PyErr :=
  match v with
  | .nonNum => (s, some (.typeError (name ++ " must be a number")))
  | .num q =>
    match validate_input_props name q with
    | some e => (s, some e)
    | none => propsSetterBody name q s

/-- The state_setter_PROPS decorator: first rejects every write while the
fluid slot is None, then behaves exactly like state_setter_ha: fewer than
two pins or an already pinned name runs func unconditionally, otherwise
func runs inside try with the caught error re-wrapped.  No branch consults
PropsSI or test_state_validity. -/
def state_setter_PROPS (s : StateProps) (name : String) (v : PyVal) : StateProps × Option PyErr :=
  if s.fluid = none then
    (s, some (.valueError ("Cannot set " ++ name ++ " - fluid type must be set first")))
  else if s.constraints_set.length < 2 ∨ name ∈ s.constraints_set then
    match propsFunc name v s with
    | (s', none) => ({ s' with constraints_set := insertC name s'.constraints_set }, none)
    | (s', some e) => (s', some e)
  else
    match propsFunc name v s with
    | (s', none) => ({ s' with constraints_set := insertC name s'.constraints_set }, none)
    | (s', some e) => (s', some (.valueError ("Cannot set " ++ name ++ " - " ++ errStr e)))

/-- The external PropsSI function: output code, input pairs and the fluid
name, returning a value or raising ValueError. -/
def OracleProps : Type := String → List (String × ℚ) → String → Except String ℚ

/-- StateProps.get_prop: refuses when fewer than two constraints are
pinned or the fluid slot is falsy in the Python sense (None or the empty
string, since the source guard is a truthiness test on the fluid), then
builds the argument list from the constraint set and invokes PropsSI
once. -/
def StateProps.get_prop (oracle : OracleProps) (s : StateProps) (prop : String) :
    Except PyErr ℚ × Nat :=
  if s.constraints_set.length < 2 then
    (.error (.valueError "Cannot calculate properties until state is fully defined with 2 constraints"), 0)
  else
    match s.fluid with
    | none => (.error (.valueError "Fluid type must be set before calculating properties"), 0)
    | some fl =>
      if fl = "" then
        (.error (.valueError "Fluid type must be set before calculating properties"), 0)
      else
        match buildTrial (propsAttr s) propsPropMap s.constraints_set with
        | .error e => (.error e, 0)
        | .ok props =>
          match oracle prop props fl with
          | .ok v => (.ok v, 1)
          | .error m => (.error (.valueError m), 1)

/-- Shared shape of the tempk, press and dens getters of StateProps: a
pinned name returns its slot, exactly two pins computes through get_prop,
anything else returns the slot. -/
def propsGetterA (oracle : OracleProps) (s : StateProps) (name code : String)
    (attr : Option ℚ) : Except PyErr (Option ℚ) × Nat :=
  if name ∈ s.constraints_set then (.ok attr, 0)
  else if s.constraints_set.length = 2 then
    match StateProps.get_prop oracle s code with
    | (.ok v, n) => (.ok (some v), n)
    | (.error e, n) => (.error e, n)
  else (.ok attr, 0)

/-- Shared shape of the enthalpy, entropy, cp and cv getters of
StateProps: a pinned name returns its slot, two pins with a fluid set
computes through get_prop, anything else returns None. -/
def propsGetterB (oracle : OracleProps) (s : StateProps) (name code : String)
    (attr : Option ℚ) : Except PyErr (Option ℚ) × Nat :=
  if name ∈ s.constraints_set then (.ok attr, 0)
  else if s.constraints_set.length = 2 ∧ s.fluid ≠ none then
    match StateProps.get_prop oracle s code with
    | (.ok v, n) => (.ok (some v), n)
    | (.error e, n) => (.error e, n)
  else (.ok none, 0)

/-- StateProps.tempk getter. -/
def StateProps.tempk_get (oracle : OracleProps) (s : StateProps) : Except PyErr (Option ℚ) × Nat :=
  propsGetterA oracle s "tempk" "T" s.tempk

/-- StateProps.tempc getter, same shape as the StateHA one. -/
def StateProps.tempc_get (oracle : OracleProps) (s : StateProps) : Except PyErr (Option ℚ) × Nat :=
  if "tempc" ∈ s.constraints_set then (.ok s.tempc, 0)
  else if "tempk" ∈ s.constraints_set then
    match s.tempk with
    | some t => (.ok (some (t - 273.15)), 0)
    | none => (.error (.typeError noneSubMsg), 0)
  else
    match StateProps.tempk_get oracle s with
    | (.ok (some t), n) => (.ok (some (t - 273.15)), n)
    | (.ok none, n) => (.error (.typeError noneSubMsg), n)
    | (.error e, n) => (.error e, n)

/-- StateProps.press getter. -/
def StateProps.press_get (oracle : OracleProps) (s : StateProps) : Except PyErr (Option ℚ) × Nat :=
  propsGetterA oracle s "press" "P" s.press

/-- StateProps.dens getter. -/
def StateProps.dens_get (oracle : OracleProps) (s : StateProps) : Except PyErr (Option ℚ) × Nat :=
  propsGetterA oracle s "dens" "D" s.dens

/-- StateProps.quality getter: on two pins with a fluid set it computes
through get_prop, turning a ValueError into None (outside the two-phase
region); any other exception, a KeyError included, propagates. -/
def StateProps.quality_get (oracle : OracleProps) (s : StateProps) : Except PyErr (Option ℚ) × Nat :=
  if "quality" ∈ s.constraints_set then (.ok s.quality, 0)
  else if s.constraints_set.length = 2 ∧ s.fluid ≠ none then
    match StateProps.get_prop oracle s "Q" with
    | (.ok v, n) => (.ok (some v), n)
    | (.error (.valueError _), n) => (.ok none, n)
    | (.error e, n) => (.error e, n)
  else (.ok none, 0)

/-- StateProps.enthalpy getter. -/
def StateProps.enthalpy_get (oracle : OracleProps) (s : StateProps) : Except PyErr (Option ℚ) × Nat :=
  propsGetterB oracle s "enthalpy" "H" s.enthalpy

/-- StateProps.entropy getter. -/
def StateProps.entropy_get (oracle : OracleProps) (s : StateProps) : Except PyErr (Option ℚ) × Nat :=
  propsGetterB oracle s "entropy" "S" s.entropy

/-- StateProps.cp getter. -/
def StateProps.cp_get (oracle : OracleProps) (s : StateProps) : Except PyErr (Option ℚ) × Nat :=
  propsGetterB oracle s "cp" "C" s.cp

/-- StateProps.cv getter. -/
def StateProps.cv_get (oracle : OracleProps) (s : StateProps) : Except PyErr (Option ℚ) × Nat :=
  propsGetterB oracle s "cv" "O" s.cv

/-- Exception message of a Python division applied to None. -/
def noneDivMsg : String := "unsupported operand type for div: float and NoneType"

/-- StateProps.vol getter.  The source body is a conditional expression
over self.dens, the full dens getter: the condition evaluates self.dens
once, and when the result is not None the returned division evaluates
self.dens a second time, so on a complete state with dens unpinned two
oracle calls happen.  Either evaluation may itself raise. -/
def StateProps.vol_get (oracle : OracleProps) (s : StateProps) : Except PyErr (Option ℚ) × Nat :=
  match StateProps.dens_get oracle s with
  | (.ok (some _), n) =>
    match StateProps.dens_get oracle s with
    | (.ok (some d), m) =>
      if d = 0 then (.error .zeroDivisionError, n + m) else (.ok (some (1 / d)), n + m)
    | (.ok none, m) => (.error (.typeError noneDivMsg), n + m)
    | (.error e, m) => (.error e, n + m)
  | (.ok none, n) => (.ok none, n)
  | (.error e, n) => (.error e, n)

/-- Attribute read dispatch over the ten StateProps properties. -/
def readProps (oracle : OracleProps) (s : StateProps) : String → Except PyErr (Option ℚ) × Nat
  | "tempk" => StateProps.tempk_get oracle s
  | "tempc" => StateProps.tempc_get oracle s
  | "press" => StateProps.press_get oracle s
  | "dens" => StateProps.dens_get oracle s
  | "quality" => StateProps.quality_get oracle s
  | "enthalpy" => StateProps.enthalpy_get oracle s
  | "entropy" => StateProps.entropy_get oracle s
  | "cp" => StateProps.cp_get oracle s
  | "cv" => StateProps.cv_get oracle s
  | "vol" => StateProps.vol_get oracle s
  | name => (.error (.typeError ("AttributeError: " ++ name)), 0)

/-- The public members defined on class StateHA in the source: the fifteen
properties with getter and setter, the read-only constraints property and
the three plain methods.  No reset and no replace member exists. -/
def StateHA.publicMembers : List String :=
  ["tempk", "tempc", "press", "humrat", "wetbulb", "relhum", "vol",
   "enthalpy", "entropy", "dewpoint", "density", "cp", "viscosity",
   "conductivity", "prandtl", "constraints", "set", "get_prop",
   "test_state_validity"]

/-- The public members defined on class StateProps in the source: the ten
properties with getter and setter, the fluid property, the read-only
constraints property and the three plain methods.  No reset and no
replace member exists. -/
def StateProps.publicMembers : List String :=
  ["tempk", "tempc", "press", "dens", "quality", "enthalpy", "entropy",
   "cp", "cv", "vol", "fluid", "constraints", "set", "get_prop",
   "test_state_validity"]

/-- Applies a sequence of property writes through the StateHA setter,
keeping the surviving state of each step as Python does after a caught
exception. -/
def applyHA : StateHA → List (String × PyVal) → StateHA
  | s, [] => s
  | s, (n, v) :: ws => applyHA (state_setter_ha s n v).1 ws

/-- Applies a sequence of property writes through the StateProps setter. -/
def applyProps : StateProps → List (String × PyVal) → StateProps
  | s, [] => s
  | s, (n, v) :: ws => applyProps (state_setter_PROPS s n v).1 ws

/-- An oracle that rejects every combination, for exercising the failure
path of the validity checker. -/
def oracleRejectHA : OracleHA := fun _ _ => .error "rejected"

/-- An oracle that returns 1 for every request. -/
def oracleOneHA : OracleHA := fun _ _ => .ok 1

/-- A PropsSI oracle that returns 1 for every request. -/
def oracleOneProps : OracleProps := fun _ _ _ => .ok 1

/-- The StateHA reached from StateHA() by the write tempk := 293.15. -/
def s1ha : StateHA :=
  { tempk := some 293.15, tempc := none, press := none, humrat := none
    wetbulb := none, relhum := none, vol := none, enthalpy := none
    entropy := none, dewpoint := none, density := none, cp := none
    viscosity := none, conductivity := none, prandtl := none
    constraints_set := ["tempk"] }

/-- The StateHA reached from s1ha by the write press := 101325: two pins,
one short of the three a humid-air state needs. -/
def s2ha : StateHA :=
  { s1ha with press := some 101325, constraints_set := ["press", "tempk"] }

/-- The StateHA reached from s2ha by the write relhum := 0.5: a complete
three-pin state. -/
def s3ha : StateHA :=
  { s2ha with relhum := some 0.5, constraints_set := ["relhum", "press", "tempk"] }

/-- The StateHA reached from s3ha by the write humrat := 0.01: four pins. -/
def s4ha : StateHA :=
  { s3ha with
    humrat := some 0.01,
    constraints_set := ["humrat", "relhum", "press", "tempk"] }

/-- A StateProps right after the assignment fluid := Water (the fluid
setter stores the string and touches nothing else). -/
def wProps : StateProps :=
  { freshProps with fluid := some "Water" }

/-- The StateProps reached from wProps by the write vol := 2: the setter
body stores the reciprocal into the dens slot and the decorator pins the
name vol. -/
def p1Props : StateProps :=
  { wProps with dens := some (1 / 2), constraints_set := ["vol"] }

/-- The StateProps reached from p1Props by the write tempk := 300: a
complete two-pin state whose pin set contains vol. -/
def p2aProps : StateProps :=
  { p1Props with tempk := some 300, constraints_set := ["tempk", "vol"] }

/-- The StateProps reached from p1Props by the write press := 101325: a
complete two-pin state whose pin set contains vol. -/
def p2bProps : StateProps :=
  { p1Props with press := some 101325, constraints_set := ["press", "vol"] }

/-- Well-formedness that every state reachable through the StateHA setters
satisfies: every pinned name has a prop_map entry and a stored value. -/
def WFha (s : StateHA) : Prop :=
  ∀ c ∈ s.constraints_set, (lookupMap haPropMap c).isSome ∧ (haAttr s c).isSome

/-- The analogous well-formedness for StateProps pin sets; note that a pin
on vol violates it, since propsPropMap has no vol entry. -/
def WFprops (s : StateProps) : Prop :=
  ∀ c ∈ s.constraints_set, (lookupMap propsPropMap c).isSome ∧ (propsAttr s c).isSome

/-- Truthiness of the fluid slot, as the source guard `if not self._fluid`
sees it: a fluid counts as set when it is neither None nor the empty
string. -/
def fluidSet (s : StateProps) : Prop :=
  s.fluid ≠ none ∧ s.fluid ≠ some ""

instance (s : StateProps) : Decidable (fluidSet s) := by
  unfold fluidSet
  infer_instance

/-- Total number of oracle invocations made by reading the same property
twice in a row.  The source getters mutate nothing (no cache write, no
version stamp), so the second read runs on an identical state: the sum of
the two call counts is the exact number of HAPropsSI calls the two
sequential attribute reads perform. -/
def oracleCallsTwoReads (oracle : OracleHA) (s : StateHA) (name : String) : Nat :=
  (readHA oracle s name).2 + (readHA oracle s name).2


lemma insertC_subset (n : String) (c : List String) : c ⊆ insertC n c := by
  unfold insertC
  split
  · exact fun x hx => hx
  · exact List.subset_cons_self n c

lemma insertC_mem (n : String) (c : List String) : n ∈ insertC n c := by
  unfold insertC
  split
  · assumption
  · exact List.mem_cons_self n c

lemma insertC_nodup (n : String) (c : List String) (h : c.Nodup) : (insertC n c).Nodup := by
  unfold insertC
  split
  · exact h
  · exact List.nodup_cons.mpr ⟨by assumption, h⟩

lemma insertC_sub (n : String) (c l : List String) (hn : n ∈ l) (hc : c ⊆ l) :
    insertC n c ⊆ l := by
  unfold insertC
  split
  · exact hc
  · exact List.cons_subset.mpr ⟨hn, hc⟩

lemma insertC_len (n : String) (c : List String) (h : n ∉ c) :
    (insertC n c).length = c.length + 1 := by
  unfold insertC
  rw [if_neg h]
  rfl

lemma insertC_of_mem (n : String) (c : List String) (h : n ∈ c) : insertC n c = c := by
  unfold insertC
  exact if_pos h

lemma set_ha_atomic (s : StateHA) (name : String) (v : PyVal) (hn : name ∈ haNames) :
    ((state_setter_ha s name v).2).isSome → (state_setter_ha s name v).1 = s := by
  fin_cases hn <;> cases v <;>
    simp only [state_setter_ha, haFunc, validate_input_ha, haSetterBody,
      String.reduceEq, or_self, or_false, false_or, true_or, or_true, reduceIte] <;>
    split_ifs <;> simp_all

lemma set_props_atomic (s : StateProps) (name : String) (v : PyVal) (hn : name ∈ propsNames) :
    ((state_setter_PROPS s name v).2).isSome → (state_setter_PROPS s name v).1 = s := by
  fin_cases hn <;> cases v <;>
    simp only [state_setter_PROPS, propsFunc, validate_input_props, propsSetterBody,
      String.reduceEq, or_self, or_false, false_or, true_or, or_true, reduceIte] <;>
    split_ifs <;> simp_all

lemma set_ha_ok_iff (s : StateHA) (name : String) (q : ℚ) (hn : name ∈ haNames) :
    (state_setter_ha s name (.num q)).2 = none ↔ validate_input_ha name q = none := by
  fin_cases hn <;>
    simp only [state_setter_ha, haFunc, validate_input_ha, haSetterBody,
      String.reduceEq, or_self, or_false, false_or, true_or, or_true, reduceIte] <;>
    split_ifs <;> simp_all

lemma set_props_ok_iff (s : StateProps) (name : String) (q : ℚ) (hn : name ∈ propsNames)
    (hv : name ≠ "vol") (hf : s.fluid ≠ none) :
    (state_setter_PROPS s name (.num q)).2 = none ↔ validate_input_props name q = none := by
  fin_cases hn <;> try simp_all
  all_goals
    simp only [state_setter_PROPS, propsFunc, validate_input_props, propsSetterBody,
      String.reduceEq, or_self, or_false, false_or, true_or, or_true, reduceIte]
  all_goals split_ifs <;> simp_all

lemma set_ha_pins_ok (s : StateHA) (name : String) (v : PyVal) (hn : name ∈ haNames) :
    (state_setter_ha s name v).2 = none →
    ((state_setter_ha s name v).1).constraints_set = insertC name s.constraints_set := by
  fin_cases hn <;> cases v <;>
    simp only [state_setter_ha, haFunc, validate_input_ha, haSetterBody,
      String.reduceEq, or_self, or_false, false_or, true_or, or_true, reduceIte] <;>
    split_ifs <;> simp_all

lemma set_props_pins_ok (s : StateProps) (name : String) (v : PyVal) (hn : name ∈ propsNames) :
    (state_setter_PROPS s name v).2 = none →
    ((state_setter_PROPS s name v).1).constraints_set = insertC name s.constraints_set := by
  fin_cases hn <;> cases v <;>
    simp only [state_setter_PROPS, propsFunc, validate_input_props, propsSetterBody,
      String.reduceEq, or_self, or_false, false_or, true_or, or_true, reduceIte] <;>
    split_ifs <;> simp_all

lemma set_ha_pins_cases (s : StateHA) (name : String) (v : PyVal) (hn : name ∈ haNames) :
    ((state_setter_ha s name v).1).constraints_set = s.constraints_set ∨
    ((state_setter_ha s name v).1).constraints_set = insertC name s.constraints_set := by
  fin_cases hn <;> cases v <;>
    simp only [state_setter_ha, haFunc, validate_input_ha, haSetterBody,
      String.reduceEq, or_self, or_false, false_or, true_or, or_true, reduceIte] <;>
    split_ifs <;> simp_all

lemma set_props_pins_cases (s : StateProps) (name : String) (v : PyVal) (hn : name ∈ propsNames) :
    ((state_setter_PROPS s name v).1).constraints_set = s.constraints_set ∨
    ((state_setter_PROPS s name v).1).constraints_set = insertC name s.constraints_set := by
  fin_cases hn <;> cases v <;>
    simp only [state_setter_PROPS, propsFunc, validate_input_props, propsSetterBody,
      String.reduceEq, or_self, or_false, false_or, true_or, or_true, reduceIte] <;>
    split_ifs <;> simp_all

lemma set_ha_mono (s : StateHA) (name : String) (v : PyVal) (hn : name ∈ haNames) :
    s.constraints_set ⊆ ((state_setter_ha s name v).1).constraints_set := by
  rcases set_ha_pins_cases s name v hn with h | h <;> rw [h]
  · exact fun x hx => hx
  · exact insertC_subset name s.constraints_set

lemma set_props_mono (s : StateProps) (name : String) (v : PyVal) (hn : name ∈ propsNames) :
    s.constraints_set ⊆ ((state_setter_PROPS s name v).1).constraints_set := by
  rcases set_props_pins_cases s name v hn with h | h <;> rw [h]
  · exact fun x hx => hx
  · exact insertC_subset name s.constraints_set

lemma buildTrial_ok (attr : String → Option ℚ) (pmap : List (String × String)) :
    ∀ cs : List String, (∀ c ∈ cs, (lookupMap pmap c).isSome ∧ (attr c).isSome) →
    ∃ l, buildTrial attr pmap cs = .ok l := by
  intro cs
  induction cs with
  | nil => exact fun _ => ⟨[], rfl⟩
  | cons c cs ih =>
    intro h
    obtain ⟨h1, h2⟩ := h c (List.mem_cons_self c cs)
    obtain ⟨code, hc⟩ := Option.isSome_iff_exists.mp h1
    obtain ⟨q, hq⟩ := Option.isSome_iff_exists.mp h2
    obtain ⟨l, hl⟩ := ih (fun x hx => h x (List.mem_cons_of_mem c hx))
    refine ⟨(code, if c = "tempc" then q + 273.15 else q) :: l, ?_⟩
    simp [buildTrial, hc, hq, hl]

lemma get_prop_ha_count (o : OracleHA) (s : StateHA) (p : String)
    (h3 : s.constraints_set.length = 3) (hwf : WFha s) :
    (StateHA.get_prop o s p).2 = 1 := by
  unfold StateHA.get_prop
  rw [if_neg (by omega)]
  obtain ⟨l, hl⟩ := buildTrial_ok (haAttr s) haPropMap s.constraints_set hwf
  rcases ho : o p l with v | m <;> simp [hl, ho]

lemma get_prop_props_count (o : OracleProps) (s : StateProps) (p : String)
    (h2 : s.constraints_set.length = 2) (hf : fluidSet s) (hwf : WFprops s) :
    (StateProps.get_prop o s p).2 = 1 := by
  unfold StateProps.get_prop
  rw [if_neg (by omega)]
  rcases hfl : s.fluid with _ | fl
  · exact absurd hfl hf.1
  · have hne : ¬ fl = "" := fun h => hf.2 (by rw [hfl, h])
    obtain ⟨l, hl⟩ := buildTrial_ok (propsAttr s) propsPropMap s.constraints_set hwf
    rcases ho : o p l fl with v | m <;> simp [hfl, hne, hl, ho]

lemma haGetterStd_count (o : OracleHA) (s : StateHA) (name code : String) (attr : Option ℚ)
    (hnp : name ∉ s.constraints_set) (h3 : s.constraints_set.length = 3) (hwf : WFha s) :
    (haGetterStd o s name code attr).2 = 1 := by
  unfold haGetterStd
  rw [if_neg hnp, if_pos h3]
  have hc := get_prop_ha_count o s code h3 hwf
  rcases hg : StateHA.get_prop o s code with ⟨r, n⟩
  rw [hg] at hc
  simp only at hc
  rcases r with err | v <;> simp [hg, hc]

lemma density_get_count (o : OracleHA) (s : StateHA)
    (hnp : "density" ∉ s.constraints_set) (h3 : s.constraints_set.length = 3) (hwf : WFha s) :
    (StateHA.density_get o s).2 = 1 := by
  unfold StateHA.density_get
  rw [if_neg hnp, if_pos h3]
  have hc := get_prop_ha_count o s "V" h3 hwf
  rcases hg : StateHA.get_prop o s "V" with ⟨r, n⟩
  rw [hg] at hc
  simp only at hc
  rcases r with err | v <;> simp [hg, hc, apply_ite]

lemma propsGetterA_count (o : OracleProps) (s : StateProps) (name code : String) (attr : Option ℚ)
    (hnp : name ∉ s.constraints_set) (h2 : s.constraints_set.length = 2)
    (hf : fluidSet s) (hwf : WFprops s) :
    (propsGetterA o s name code attr).2 = 1 := by
  unfold propsGetterA
  rw [if_neg hnp, if_pos h2]
  have hc := get_prop_props_count o s code h2 hf hwf
  rcases hg : StateProps.get_prop o s code with ⟨r, n⟩
  rw [hg] at hc
  simp only at hc
  rcases r with err | v <;> simp [hg, hc]

lemma propsGetterB_count (o : OracleProps) (s : StateProps) (name code : String) (attr : Option ℚ)
    (hnp : name ∉ s.constraints_set) (h2 : s.constraints_set.length = 2)
    (hf : fluidSet s) (hwf : WFprops s) :
    (propsGetterB o s name code attr).2 = 1 := by
  unfold propsGetterB
  rw [if_neg hnp, if_pos ⟨h2, hf.1⟩]
  have hc := get_prop_props_count o s code h2 hf hwf
  rcases hg : StateProps.get_prop o s code with ⟨r, n⟩
  rw [hg] at hc
  simp only at hc
  rcases r with err | v <;> simp [hg, hc]

lemma quality_get_count (o : OracleProps) (s : StateProps)
    (hnp : "quality" ∉ s.constraints_set) (h2 : s.constraints_set.length = 2)
    (hf : fluidSet s) (hwf : WFprops s) :
    (StateProps.quality_get o s).2 = 1 := by
  unfold StateProps.quality_get
  rw [if_neg hnp, if_pos ⟨h2, hf.1⟩]
  have hc := get_prop_props_count o s "Q" h2 hf hwf
  rcases hg : StateProps.get_prop o s "Q" with ⟨r, n⟩
  rw [hg] at hc
  simp only at hc
  rcases r with err | v
  · cases err <;> simp [hg, hc]
  · simp [hg, hc]

lemma haGetterStd_pinned (o : OracleHA) (s : StateHA) (name code : String) (attr : Option ℚ)
    (hp : name ∈ s.constraints_set) : haGetterStd o s name code attr = (.ok attr, 0) := by
  unfold haGetterStd
  rw [if_pos hp]

lemma haGetterStd_unpinned (o : OracleHA) (s : StateHA) (name code : String) (attr : Option ℚ)
    (hnp : name ∉ s.constraints_set) (h3 : s.constraints_set.length ≠ 3) :
    haGetterStd o s name code attr = (.ok attr, 0) := by
  unfold haGetterStd
  rw [if_neg hnp, if_neg h3]

lemma propsGetterA_pinned (o : OracleProps) (s : StateProps) (name code : String) (attr : Option ℚ)
    (hp : name ∈ s.constraints_set) : propsGetterA o s name code attr = (.ok attr, 0) := by
  unfold propsGetterA
  rw [if_pos hp]

lemma propsGetterA_unpinned (o : OracleProps) (s : StateProps) (name code : String)
    (attr : Option ℚ) (hnp : name ∉ s.constraints_set) (h2 : s.constraints_set.length ≠ 2) :
    propsGetterA o s name code attr = (.ok attr, 0) := by
  unfold propsGetterA
  rw [if_neg hnp, if_neg h2]

lemma dens_get_slot (o : OracleProps) (s : StateProps) (h2 : s.constraints_set.length ≠ 2) :
    StateProps.dens_get o s = (.ok s.dens, 0) := by
  unfold StateProps.dens_get
  by_cases hdp : "dens" ∈ s.constraints_set
  · exact propsGetterA_pinned o s _ _ _ hdp
  · exact propsGetterA_unpinned o s _ _ _ hdp h2

lemma propsGetterB_pinned (o : OracleProps) (s : StateProps) (name code : String) (attr : Option ℚ)
    (hp : name ∈ s.constraints_set) : propsGetterB o s name code attr = (.ok attr, 0) := by
  unfold propsGetterB
  rw [if_pos hp]

lemma applyHA_inv : ∀ (ws : List (String × PyVal)) (s : StateHA),
    s.constraints_set ⊆ haNames → s.constraints_set.Nodup →
    (∀ p ∈ ws, p.1 ∈ haNames) →
    (applyHA s ws).constraints_set ⊆ haNames ∧ (applyHA s ws).constraints_set.Nodup := by
  intro ws
  induction ws with
  | nil => intro s h1 h2 _; exact ⟨h1, h2⟩
  | cons p ws ih =>
    intro s h1 h2 h3
    rcases p with ⟨n, v⟩
    have hn : n ∈ haNames := h3 (n, v) (List.mem_cons_self _ _)
    have h3t : ∀ p ∈ ws, p.1 ∈ haNames := fun p hp => h3 p (List.mem_cons_of_mem _ hp)
    simp only [applyHA]
    rcases set_ha_pins_cases s n v hn with hc | hc
    · exact ih _ (by rw [hc]; exact h1) (by rw [hc]; exact h2) h3t
    · exact ih _ (by rw [hc]; exact insertC_sub n _ _ hn h1)
        (by rw [hc]; exact insertC_nodup n _ h2) h3t

lemma applyProps_inv : ∀ (ws : List (String × PyVal)) (s : StateProps),
    s.constraints_set ⊆ propsNames → s.constraints_set.Nodup →
    (∀ p ∈ ws, p.1 ∈ propsNames) →
    (applyProps s ws).constraints_set ⊆ propsNames ∧ (applyProps s ws).constraints_set.Nodup := by
  intro ws
  induction ws with
  | nil => intro s h1 h2 _; exact ⟨h1, h2⟩
  | cons p ws ih =>
    intro s h1 h2 h3
    rcases p with ⟨n, v⟩
    have hn : n ∈ propsNames := h3 (n, v) (List.mem_cons_self _ _)
    have h3t : ∀ p ∈ ws, p.1 ∈ propsNames := fun p hp => h3 p (List.mem_cons_of_mem _ hp)
    simp only [applyProps]
    rcases set_props_pins_cases s n v hn with hc | hc
    · exact ih _ (by rw [hc]; exact h1) (by rw [hc]; exact h2) h3t
    · exact ih _ (by rw [hc]; exact insertC_sub n _ _ hn h1)
        (by rw [hc]; exact insertC_nodup n _ h2) h3t

lemma sub_nodup_length (l m : List String) (hn : l.Nodup) (hs : l ⊆ m) :
    l.length ≤ m.length :=
  (List.subperm_of_subset hn hs).length_le

lemma s1ha_reach : state_setter_ha emptyHA "tempk" (.num 293.15) = (s1ha, none) := by
  simp [state_setter_ha, haFunc, validate_input_ha, haSetterBody, insertC, emptyHA, s1ha,
    String.reduceEq]
  try norm_num
  try simp [String.reduceEq]
  try norm_num

lemma s2ha_reach : state_setter_ha s1ha "press" (.num 101325) = (s2ha, none) := by
  simp [state_setter_ha, haFunc, validate_input_ha, haSetterBody, insertC, s1ha, s2ha,
    String.reduceEq]
  try norm_num
  try simp [String.reduceEq]
  try norm_num

lemma s3ha_reach : state_setter_ha s2ha "relhum" (.num 0.5) = (s3ha, none) := by
  simp [state_setter_ha, haFunc, validate_input_ha, haSetterBody, insertC, s1ha, s2ha, s3ha,
    String.reduceEq]
  try norm_num
  try simp [String.reduceEq]
  try norm_num

lemma s4ha_reach : state_setter_ha s3ha "humrat" (.num 0.01) = (s4ha, none) := by
  simp [state_setter_ha, haFunc, validate_input_ha, haSetterBody, insertC, s1ha, s2ha, s3ha,
    s4ha, String.reduceEq]
  try norm_num
  try simp [String.reduceEq]
  try norm_num

lemma p1Props_reach : state_setter_PROPS wProps "vol" (.num 2) = (p1Props, none) := by
  simp [state_setter_PROPS, propsFunc, validate_input_props, propsSetterBody, insertC,
    freshProps, wProps, p1Props, String.reduceEq]
  try norm_num
  try simp [String.reduceEq]
  try norm_num

lemma p2aProps_reach : state_setter_PROPS p1Props "tempk" (.num 300) = (p2aProps, none) := by
  simp [state_setter_PROPS, propsFunc, validate_input_props, propsSetterBody, insertC,
    freshProps, wProps, p1Props, p2aProps, String.reduceEq]
  try norm_num
  try simp [String.reduceEq]
  try norm_num

lemma p2bProps_reach : state_setter_PROPS p1Props "press" (.num 101325) = (p2bProps, none) := by
  simp [state_setter_PROPS, propsFunc, validate_input_props, propsSetterBody, insertC,
    freshProps, wProps, p1Props, p2bProps, String.reduceEq]
  try norm_num
  try simp [String.reduceEq]
  try norm_num

/-- Claim C5: every property write that raises an error (type error, range
error, or a failure inside the setter body) leaves the state, and hence the
pinned names and stored values that constraints reports, exactly as it was
before the call; no partial mutation survives a rejected write.  Proved for
both state kinds over all states, property names and values. -/
theorem c5_theorem :
    (∀ (s : StateHA) (name : String) (v : PyVal), name ∈ haNames →
      ((state_setter_ha s name v).2).isSome → (state_setter_ha s name v).1 = s) ∧
    (∀ (s : StateProps) (name : String) (v : PyVal), name ∈ propsNames →
      ((state_setter_PROPS s name v).2).isSome → (state_setter_PROPS s name v).1 = s) :=
  ⟨fun s name v hn => set_ha_atomic s name v hn,
   fun s name v hn => set_props_atomic s name v hn⟩

/-- Witness for C5: the write tempk := -1 on a fresh StateHA raises a range
error and the state is exactly the fresh state afterwards. -/
theorem c5_witness :
    ("tempk" ∈ haNames ∧ ((state_setter_ha emptyHA "tempk" (.num (-1))).2).isSome) ∧
    (state_setter_ha emptyHA "tempk" (.num (-1))).1 = emptyHA := by
  have h1 : "tempk" ∈ haNames := by decide
  have h2 : ((state_setter_ha emptyHA "tempk" (.num (-1))).2).isSome := by
    simp [state_setter_ha, haFunc, validate_input_ha, haSetterBody, insertC, emptyHA,
      String.reduceEq]
    try norm_num
  exact ⟨⟨h1, h2⟩, c5_theorem.1 emptyHA "tempk" (.num (-1)) h1 h2⟩

/-- Claim C6: on StateProps, every property write attempted while the fluid
slot is unset raises the missing-fluid ValueError of state_setter_PROPS,
whatever the pin count, and returns the state unchanged. -/
theorem c6_theorem :
    ∀ (s : StateProps) (name : String) (v : PyVal), name ∈ propsNames →
    s.fluid = none →
    state_setter_PROPS s name v =
      (s, some (.valueError ("Cannot set " ++ name ++ " - fluid type must be set first"))) := by
  intro s name v _ hf
  unfold state_setter_PROPS
  rw [if_pos hf]

/-- Witness for C6: the write tempk := 300 on a fresh StateProps (no fluid)
raises the missing-fluid error and changes nothing. -/
theorem c6_witness :
    ("tempk" ∈ propsNames ∧ freshProps.fluid = none) ∧
    state_setter_PROPS freshProps "tempk" (.num 300) =
      (freshProps,
        some (.valueError ("Cannot set " ++ "tempk" ++ " - fluid type must be set first"))) :=
  ⟨⟨by decide, rfl⟩, c6_theorem freshProps "tempk" (.num 300) (by decide) rfl⟩

/-- Counterexample to C9: neither class declares a reset or a replace member;
the claimed operations do not exist in the source. -/
theorem c9_counterexample :
    "reset" ∉ StateHA.publicMembers ∧ "replace" ∉ StateHA.publicMembers ∧
    "reset" ∉ StateProps.publicMembers ∧ "replace" ∉ StateProps.publicMembers := by
  decide

/-- Claim C9 as amended: the public surface exposes constraints but no reset
and no replace; no setter ever removes a pin (the pin set only grows), so the
only way to change a pinned value is to assign the same property again. -/
theorem c9_theorem :
    ("constraints" ∈ StateHA.publicMembers ∧ "constraints" ∈ StateProps.publicMembers) ∧
    (∀ (s : StateHA) (name : String) (v : PyVal), name ∈ haNames →
      s.constraints_set ⊆ ((state_setter_ha s name v).1).constraints_set) ∧
    (∀ (s : StateProps) (name : String) (v : PyVal), name ∈ propsNames →
      s.constraints_set ⊆ ((state_setter_PROPS s name v).1).constraints_set) :=
  ⟨⟨by decide, by decide⟩,
   fun s name v hn => set_ha_mono s name v hn,
   fun s name v hn => set_props_mono s name v hn⟩

/-- Witness for C9: rewriting the pinned tempk of the complete state s3ha
keeps every existing pin. -/
theorem c9_witness :
    ("tempk" ∈ haNames) ∧
    s3ha.constraints_set ⊆ ((state_setter_ha s3ha "tempk" (.num 300)).1).constraints_set :=
  ⟨by decide, c9_theorem.2.1 s3ha "tempk" (.num 300) (by decide)⟩

/-- Counterexample to C1: four successive range-valid writes to distinct
StateHA properties are all accepted, leaving four pinned properties, one
more than requiredPins = 3; no write was rejected and none replaced an
existing pin. -/
theorem c1_counterexample :
    state_setter_ha emptyHA "tempk" (.num 293.15) = (s1ha, none) ∧
    state_setter_ha s1ha "press" (.num 101325) = (s2ha, none) ∧
    state_setter_ha s2ha "relhum" (.num 0.5) = (s3ha, none) ∧
    state_setter_ha s3ha "humrat" (.num 0.01) = (s4ha, none) ∧
    s4ha.constraints_set.length = 4 :=
  ⟨s1ha_reach, s2ha_reach, s3ha_reach, s4ha_reach, by decide⟩

/-- Claim C1 as amended: the pin count is not bounded by requiredPins; the
only bound the setters enforce is the number of distinct settable property
names, 15 for StateHA and 10 for StateProps, because a pin is just a name
in a duplicate-free set of property names. -/
theorem c1_theorem :
    (∀ (s : StateHA) (ws : List (String × PyVal)), s.constraints_set ⊆ haNames →
      s.constraints_set.Nodup → (∀ p ∈ ws, p.1 ∈ haNames) →
      (applyHA s ws).constraints_set.length ≤ 15) ∧
    (∀ (s : StateProps) (ws : List (String × PyVal)), s.constraints_set ⊆ propsNames →
      s.constraints_set.Nodup → (∀ p ∈ ws, p.1 ∈ propsNames) →
      (applyProps s ws).constraints_set.length ≤ 10) := by
  constructor
  · intro s ws h1 h2 h3
    obtain ⟨hs, hd⟩ := applyHA_inv ws s h1 h2 h3
    have hle := sub_nodup_length _ _ hd hs
    simpa [haNames] using hle
  · intro s ws h1 h2 h3
    obtain ⟨hs, hd⟩ := applyProps_inv ws s h1 h2 h3
    have hle := sub_nodup_length _ _ hd hs
    simpa [propsNames] using hle

/-- Witness for C1 as amended: the four-write sequence of the counterexample
stays below the 15-name bound. -/
theorem c1_witness :
    (emptyHA.constraints_set ⊆ haNames ∧ emptyHA.constraints_set.Nodup ∧
      (∀ p ∈ [("tempk", PyVal.num 293.15), ("press", PyVal.num 101325),
        ("relhum", PyVal.num 0.5), ("humrat", PyVal.num 0.01)], p.1 ∈ haNames)) ∧
    (applyHA emptyHA [("tempk", PyVal.num 293.15), ("press", PyVal.num 101325),
      ("relhum", PyVal.num 0.5), ("humrat", PyVal.num 0.01)]).constraints_set.length ≤ 15 := by
  have h1 : emptyHA.constraints_set ⊆ haNames := by simp [emptyHA]
  have h2 : emptyHA.constraints_set.Nodup := by simp [emptyHA]
  have h3 : ∀ p ∈ [("tempk", PyVal.num 293.15), ("press", PyVal.num 101325),
      ("relhum", PyVal.num 0.5), ("humrat", PyVal.num 0.01)], p.1 ∈ haNames := by
    simp [haNames]
  exact ⟨⟨h1, h2, h3⟩, c1_theorem.1 emptyHA _ h1 h2 h3⟩

lemma set_ha_stores (s : StateHA) (name : String) (q : ℚ) (hn : name ∈ haNames)
    (hok : (state_setter_ha s name (.num q)).2 = none) :
    haAttr ((state_setter_ha s name (.num q)).1) name = some q := by
  fin_cases hn <;>
    simp only [state_setter_ha, haFunc, validate_input_ha, haSetterBody,
      String.reduceEq, or_self, or_false, false_or, true_or, or_true, reduceIte] at hok ⊢ <;>
    split_ifs at hok ⊢ <;> simp_all [haAttr]

/-- Counterexample to C2: on the two-pin StateHA s2ha (tempk and press set,
pinCount = requiredPins - 1) the completing write relhum := 0.5 is accepted
and the state becomes complete, even though the validity check that the
claim says gates this write rejects every trial under the all-rejecting
oracle; the setter never consults any oracle. -/
theorem c2_counterexample :
    s2ha.constraints_set.length = 2 ∧ "relhum" ∉ s2ha.constraints_set ∧
    (state_setter_ha s2ha "relhum" (.num 0.5)).2 = none ∧
    ((state_setter_ha s2ha "relhum" (.num 0.5)).1).constraints_set.length = 3 ∧
    StateHA.test_state_validity oracleRejectHA s2ha s2ha.constraints_set "relhum" 0.5 =
      .error (.valueError ("Invalid state: " ++ "rejected")) := by
  refine ⟨by decide, by decide, ?_, ?_, ?_⟩
  · rw [s3ha_reach]
  · rw [s3ha_reach]; decide
  · simp [StateHA.test_state_validity, buildTrial, lookupMap, haAttr, haPropMap,
      s2ha, s1ha, oracleRejectHA, String.reduceEq]

/-- Claim C2 as amended: the completing write to a not-yet-pinned property on
a state with requiredPins - 1 pins is accepted exactly when the local range
validation passes; no oracle is consulted, and on acceptance the name is
pinned and the state is complete. -/
theorem c2_theorem :
    ∀ (s : StateHA) (name : String) (q : ℚ), name ∈ haNames →
    s.constraints_set.length = 2 → name ∉ s.constraints_set →
    (((state_setter_ha s name (.num q)).2 = none) ↔ validate_input_ha name q = none) ∧
    ((state_setter_ha s name (.num q)).2 = none →
      name ∈ ((state_setter_ha s name (.num q)).1).constraints_set ∧
      ((state_setter_ha s name (.num q)).1).constraints_set.length = 3) := by
  intro s name q hn hlen hnp
  refine ⟨set_ha_ok_iff s name q hn, fun hok => ?_⟩
  have hp := set_ha_pins_ok s name (.num q) hn hok
  exact ⟨by rw [hp]; exact insertC_mem name _, by rw [hp, insertC_len name _ hnp, hlen]⟩

/-- Witness for C2 as amended: the completing write relhum := 0.5 on s2ha. -/
theorem c2_witness :
    ("relhum" ∈ haNames ∧ s2ha.constraints_set.length = 2 ∧
      "relhum" ∉ s2ha.constraints_set) ∧
    ((((state_setter_ha s2ha "relhum" (.num 0.5)).2 = none) ↔
      validate_input_ha "relhum" 0.5 = none) ∧
    ((state_setter_ha s2ha "relhum" (.num 0.5)).2 = none →
      "relhum" ∈ ((state_setter_ha s2ha "relhum" (.num 0.5)).1).constraints_set ∧
      ((state_setter_ha s2ha "relhum" (.num 0.5)).1).constraints_set.length = 3)) :=
  ⟨⟨by decide, by decide, by decide⟩,
   c2_theorem s2ha "relhum" 0.5 (by decide) (by decide) (by decide)⟩

/-- Counterexample to C4: on the complete StateHA s3ha the write to the
already-pinned tempk is accepted and the stored value updated with no
validity check: under the all-rejecting oracle the checker would refuse the
trial against the other pins, yet the write succeeds because the setter
skips everything once the name is in the constraint set. -/
theorem c4_counterexample :
    "tempk" ∈ s3ha.constraints_set ∧ s3ha.constraints_set.length = 3 ∧
    (state_setter_ha s3ha "tempk" (.num 300)).2 = none ∧
    ((state_setter_ha s3ha "tempk" (.num 300)).1).tempk = some 300 ∧
    StateHA.test_state_validity oracleRejectHA s3ha ["press", "relhum"] "tempk" 300 =
      .error (.valueError ("Invalid state: " ++ "rejected")) := by
  refine ⟨by decide, by decide, ?_, ?_, ?_⟩
  · simp [state_setter_ha, haFunc, validate_input_ha, haSetterBody, insertC,
      s3ha, s2ha, s1ha, String.reduceEq]
    try norm_num
  · simp [state_setter_ha, haFunc, validate_input_ha, haSetterBody, insertC,
      s3ha, s2ha, s1ha, String.reduceEq]
    try norm_num
  · simp [StateHA.test_state_validity, buildTrial, lookupMap, haAttr, haPropMap,
      s3ha, s2ha, s1ha, oracleRejectHA, String.reduceEq]
    try norm_num

/-- Claim C4 as amended: on any state a write to an already-pinned property
is accepted exactly when the local range validation passes, at any pin
count; on acceptance the pin set is unchanged and (for StateHA) the stored
slot now holds the new value.  No oracle validation ever happens. -/
theorem c4_theorem :
    (∀ (s : StateHA) (name : String) (q : ℚ), name ∈ haNames →
      name ∈ s.constraints_set →
      (((state_setter_ha s name (.num q)).2 = none) ↔ validate_input_ha name q = none) ∧
      ((state_setter_ha s name (.num q)).2 = none →
        ((state_setter_ha s name (.num q)).1).constraints_set = s.constraints_set ∧
        haAttr ((state_setter_ha s name (.num q)).1) name = some q)) ∧
    (∀ (s : StateProps) (name : String) (q : ℚ), name ∈ propsNames → name ≠ "vol" →
      s.fluid ≠ none → name ∈ s.constraints_set →
      (((state_setter_PROPS s name (.num q)).2 = none) ↔
        validate_input_props name q = none) ∧
      ((state_setter_PROPS s name (.num q)).2 = none →
        ((state_setter_PROPS s name (.num q)).1).constraints_set = s.constraints_set)) := by
  constructor
  · intro s name q hn hp
    refine ⟨set_ha_ok_iff s name q hn, fun hok => ⟨?_, set_ha_stores s name q hn hok⟩⟩
    rw [set_ha_pins_ok s name (.num q) hn hok, insertC_of_mem name _ hp]
  · intro s name q hn hv hf hp
    refine ⟨set_props_ok_iff s name q hn hv hf, fun hok => ?_⟩
    rw [set_props_pins_ok s name (.num q) hn hok, insertC_of_mem name _ hp]

/-- Witness for C4 as amended: rewriting the pinned tempk of s3ha to 300. -/
theorem c4_witness :
    ("tempk" ∈ haNames ∧ "tempk" ∈ s3ha.constraints_set) ∧
    ((((state_setter_ha s3ha "tempk" (.num 300)).2 = none) ↔
      validate_input_ha "tempk" 300 = none) ∧
    ((state_setter_ha s3ha "tempk" (.num 300)).2 = none →
      ((state_setter_ha s3ha "tempk" (.num 300)).1).constraints_set = s3ha.constraints_set ∧
      haAttr ((state_setter_ha s3ha "tempk" (.num 300)).1) "tempk" = some 300)) :=
  ⟨⟨by decide, by decide⟩, c4_theorem.1 s3ha "tempk" 300 (by decide) (by decide)⟩

/-- Counterexample to C3: on the complete StateHA s3ha, reading the
non-pinned humrat twice in a row, with no mutation in between, performs two
oracle calls: nothing is cached and no version stamp exists, whereas the
claimed version cache would serve the second read without a new call. -/
theorem c3_counterexample :
    oracleCallsTwoReads oracleOneHA s3ha "humrat" = 2 := by
  simp [oracleCallsTwoReads, readHA, StateHA.humrat_get, haGetterStd, StateHA.get_prop,
    buildTrial, lookupMap, haAttr, haPropMap, s3ha, s2ha, s1ha, oracleOneHA,
    String.reduceEq]

/-- Claim C3 as amended: the states keep no version counter and no derived
cache, and no getter mutates the state, so nothing can be served from a
cache: on a complete well-formed state (every pin mapped and stored; for
StateProps a truthy fluid), every read of a non-pinned property invokes
the oracle afresh, exactly once per read, except the two derived views:
tempc makes no call when tempk is pinned (the display conversion) and
exactly one call otherwise, and StateProps.vol makes no call when dens is
pinned and otherwise one or two calls (two when the dens resolution
succeeds, because the getter evaluates dens twice). -/
theorem c3_theorem :
    (∀ (o : OracleHA) (s : StateHA) (name : String), name ∈ haNames → name ≠ "tempc" →
      name ∉ s.constraints_set → s.constraints_set.length = 3 → WFha s →
      (readHA o s name).2 = 1) ∧
    (∀ (o : OracleHA) (s : StateHA), "tempc" ∉ s.constraints_set →
      "tempk" ∈ s.constraints_set → (readHA o s "tempc").2 = 0) ∧
    (∀ (o : OracleHA) (s : StateHA), "tempc" ∉ s.constraints_set →
      "tempk" ∉ s.constraints_set → s.constraints_set.length = 3 → WFha s →
      (readHA o s "tempc").2 = 1) ∧
    (∀ (o : OracleProps) (s : StateProps) (name : String), name ∈ propsNames →
      name ≠ "tempc" → name ≠ "vol" → name ∉ s.constraints_set →
      s.constraints_set.length = 2 → fluidSet s → WFprops s →
      (readProps o s name).2 = 1) ∧
    (∀ (o : OracleProps) (s : StateProps), "tempc" ∉ s.constraints_set →
      "tempk" ∈ s.constraints_set → (readProps o s "tempc").2 = 0) ∧
    (∀ (o : OracleProps) (s : StateProps), "tempc" ∉ s.constraints_set →
      "tempk" ∉ s.constraints_set → s.constraints_set.length = 2 → fluidSet s →
      WFprops s → (readProps o s "tempc").2 = 1) ∧
    (∀ (o : OracleProps) (s : StateProps), "dens" ∈ s.constraints_set →
      (readProps o s "vol").2 = 0) ∧
    (∀ (o : OracleProps) (s : StateProps), "dens" ∉ s.constraints_set →
      s.constraints_set.length = 2 → fluidSet s → WFprops s →
      1 ≤ (readProps o s "vol").2 ∧ (readProps o s "vol").2 ≤ 2) := by
  refine ⟨?_, ?_, ?_, ?_, ?_, ?_, ?_, ?_⟩
  · intro o s name hn hne hnp h3 hwf
    fin_cases hn <;>
      first
        | exact absurd rfl hne
        | (simp only [readHA, StateHA.tempk_get, StateHA.press_get, StateHA.relhum_get,
             StateHA.humrat_get, StateHA.wetbulb_get, StateHA.dewpoint_get, StateHA.vol_get,
             StateHA.enthalpy_get, StateHA.entropy_get, StateHA.cp_get, StateHA.viscosity_get,
             StateHA.conductivity_get, StateHA.prandtl_get]
           exact haGetterStd_count o s _ _ _ hnp h3 hwf)
        | (simp only [readHA]
           exact density_get_count o s hnp h3 hwf)
  · intro o s h1 h2
    rcases ht : s.tempk with _ | t <;>
      simp [readHA, StateHA.tempc_get, h1, h2, ht]
  · intro o s h1 h2 h3 hwf
    have hc := haGetterStd_count o s "tempk" "T" s.tempk h2 h3 hwf
    rcases hg : haGetterStd o s "tempk" "T" s.tempk with ⟨r, n⟩
    rw [hg] at hc
    simp only at hc
    rcases r with err | v
    · simp [readHA, StateHA.tempc_get, StateHA.tempk_get, h1, h2, hg, hc]
    · rcases v with _ | t <;>
        simp [readHA, StateHA.tempc_get, StateHA.tempk_get, h1, h2, hg, hc]
  · intro o s name hn hne hnv hnp h2 hf hwf
    fin_cases hn <;>
      first
        | exact absurd rfl hne
        | exact absurd rfl hnv
        | (simp only [readProps, StateProps.tempk_get, StateProps.press_get,
             StateProps.dens_get, StateProps.enthalpy_get, StateProps.entropy_get,
             StateProps.cp_get, StateProps.cv_get]
           first
             | exact propsGetterA_count o s _ _ _ hnp h2 hf hwf
             | exact propsGetterB_count o s _ _ _ hnp h2 hf hwf)
        | (simp only [readProps]
           exact quality_get_count o s hnp h2 hf hwf)
  · intro o s h1 h2
    rcases ht : s.tempk with _ | t <;>
      simp [readProps, StateProps.tempc_get, h1, h2, ht]
  · intro o s h1 h2 h3 hf hwf
    have hc : (StateProps.tempk_get o s).2 = 1 := by
      unfold StateProps.tempk_get
      exact propsGetterA_count o s _ _ _ h2 h3 hf hwf
    rcases hg : StateProps.tempk_get o s with ⟨r, n⟩
    rw [hg] at hc
    simp only at hc
    rcases r with err | v
    · simp [readProps, StateProps.tempc_get, h1, h2, hg, hc]
    · rcases v with _ | t <;>
        simp [readProps, StateProps.tempc_get, h1, h2, hg, hc]
  · intro o s hdp
    have hd : StateProps.dens_get o s = (.ok s.dens, 0) := by
      unfold StateProps.dens_get
      exact propsGetterA_pinned o s _ _ _ hdp
    rcases hde : s.dens with _ | d
    · simp [readProps, StateProps.vol_get, hd, hde]
    · by_cases hz : d = 0 <;> simp [readProps, StateProps.vol_get, hd, hde, hz]
  · intro o s hdp h2 hf hwf
    have hc : (StateProps.dens_get o s).2 = 1 := by
      unfold StateProps.dens_get
      exact propsGetterA_count o s _ _ _ hdp h2 hf hwf
    rcases hg : StateProps.dens_get o s with ⟨r, n⟩
    rw [hg] at hc
    simp only at hc
    rcases r with err | v
    · simp only [readProps, StateProps.vol_get, hg]
      omega
    · rcases v with _ | d
      · simp only [readProps, StateProps.vol_get, hg]
        omega
      · simp only [readProps, StateProps.vol_get, hg]
        constructor <;> split_ifs <;> simp <;> omega

/-- Witness for C3 as amended: reading the non-pinned humrat of the complete
state s3ha makes exactly one oracle call. -/
theorem c3_witness :
    ("humrat" ∈ haNames ∧ "humrat" ∉ s3ha.constraints_set ∧
      s3ha.constraints_set.length = 3 ∧ WFha s3ha) ∧
    (readHA oracleOneHA s3ha "humrat").2 = 1 :=
  ⟨⟨by decide, by decide, by decide, by unfold WFha; decide⟩,
   c3_theorem.1 oracleOneHA s3ha "humrat" (by decide) (by decide) (by decide)
     (by decide) (by unfold WFha; decide)⟩

/-- Counterexample to C7: on the StateProps p2aProps the property vol is
pinned (it is in the constraint set), yet reading it does not return the
stored raw value: the read goes through the dens getter into the
oracle-argument builder and raises KeyError, because vol has no prop_map
entry. -/
theorem c7_counterexample :
    "vol" ∈ p2aProps.constraints_set ∧
    readProps oracleOneProps p2aProps "vol" = (.error (.keyError "vol"), 0) := by
  refine ⟨by decide, ?_⟩
  simp [readProps, StateProps.vol_get, StateProps.dens_get, propsGetterA,
    StateProps.get_prop, buildTrial, lookupMap, propsAttr, propsPropMap,
    p2aProps, p1Props, wProps, freshProps, oracleOneProps, String.reduceEq]

/-- Claim C7 as amended: reading a pinned property returns its stored slot
value with no oracle call, for every StateHA property and for every
StateProps property except vol (whose getter reads through dens and, once a
second pin exists, reaches the oracle-argument builder instead). -/
theorem c7_theorem :
    (∀ (o : OracleHA) (s : StateHA) (name : String), name ∈ haNames →
      name ∈ s.constraints_set → readHA o s name = (.ok (haAttr s name), 0)) ∧
    (∀ (o : OracleProps) (s : StateProps) (name : String), name ∈ propsNames →
      name ≠ "vol" → name ∈ s.constraints_set →
      readProps o s name = (.ok (propsAttr s name), 0)) := by
  constructor
  · intro o s name hn hp
    fin_cases hn <;>
      simp_all [readHA, StateHA.tempk_get, StateHA.tempc_get, StateHA.press_get,
        StateHA.relhum_get, StateHA.humrat_get, StateHA.wetbulb_get, StateHA.dewpoint_get,
        StateHA.vol_get, StateHA.enthalpy_get, StateHA.entropy_get, StateHA.density_get,
        StateHA.cp_get, StateHA.viscosity_get, StateHA.conductivity_get,
        StateHA.prandtl_get, haGetterStd, haAttr]
  · intro o s name hn hv hp
    fin_cases hn <;>
      simp_all [readProps, StateProps.tempk_get, StateProps.tempc_get, StateProps.press_get,
        StateProps.dens_get, StateProps.quality_get, StateProps.enthalpy_get,
        StateProps.entropy_get, StateProps.cp_get, StateProps.cv_get, StateProps.vol_get,
        propsGetterA, propsGetterB, propsAttr]

/-- Witness for C7 as amended: reading the pinned tempk of s3ha returns the
stored 293.15 slot with no oracle call. -/
theorem c7_witness :
    ("tempk" ∈ haNames ∧ "tempk" ∈ s3ha.constraints_set) ∧
    readHA oracleOneHA s3ha "tempk" = (.ok (haAttr s3ha "tempk"), 0) :=
  ⟨⟨by decide, by decide⟩, c7_theorem.1 oracleOneHA s3ha "tempk" (by decide) (by decide)⟩

/-- Counterexample to C8: on a freshly constructed StateHA, reading the
non-pinned tempc raises a TypeError (None minus a float) instead of
returning the sentinel None. -/
theorem c8_counterexample :
    emptyHA.constraints_set.length ≠ 3 ∧ "tempc" ∉ emptyHA.constraints_set ∧
    readHA oracleOneHA emptyHA "tempc" = (.error (.typeError noneSubMsg), 0) := by
  refine ⟨by decide, by decide, ?_⟩
  simp [readHA, StateHA.tempc_get, StateHA.tempk_get, haGetterStd, emptyHA,
    String.reduceEq]

/-- Claim C8 as amended: on a not-complete state (for StateProps a pin
count other than 2, which covers every reachable not-complete state, since
no pin can exist without a fluid), reading a non-pinned property neither
raises nor consults the oracle, with one exception: the directly-stored
properties (all fifteen of StateHA, and tempk, press, dens of StateProps)
return their stored slot, None on a fresh state; the guarded derived
properties of StateProps (quality, enthalpy, entropy, cp, cv) return the
literal None; StateProps.vol returns the reciprocal of the dens slot, or
None when that slot is empty; and the exception is tempc, whose read
raises a TypeError whenever neither tempc nor tempk has been stored. -/
theorem c8_theorem :
    (∀ (o : OracleHA) (s : StateHA) (name : String), name ∈ haNames → name ≠ "tempc" →
      name ∉ s.constraints_set → s.constraints_set.length ≠ 3 →
      readHA o s name = (.ok (haAttr s name), 0)) ∧
    (∀ (o : OracleHA) (s : StateHA), "tempc" ∉ s.constraints_set →
      "tempk" ∉ s.constraints_set → s.constraints_set.length ≠ 3 → s.tempk = none →
      readHA o s "tempc" = (.error (.typeError noneSubMsg), 0)) ∧
    (∀ (o : OracleProps) (s : StateProps) (name : String), name ∈ ["tempk", "press", "dens"] →
      name ∉ s.constraints_set → s.constraints_set.length ≠ 2 →
      readProps o s name = (.ok (propsAttr s name), 0)) ∧
    (∀ (o : OracleProps) (s : StateProps) (name : String),
      name ∈ ["quality", "enthalpy", "entropy", "cp", "cv"] → name ∉ s.constraints_set →
      s.constraints_set.length ≠ 2 → readProps o s name = (.ok none, 0)) ∧
    (∀ (o : OracleProps) (s : StateProps), "vol" ∉ s.constraints_set →
      s.constraints_set.length ≠ 2 → s.dens ≠ some 0 →
      readProps o s "vol" = (.ok (s.dens.map fun d => 1 / d), 0)) ∧
    (∀ (o : OracleProps) (s : StateProps), "tempc" ∉ s.constraints_set →
      "tempk" ∉ s.constraints_set → s.constraints_set.length ≠ 2 → s.tempk = none →
      readProps o s "tempc" = (.error (.typeError noneSubMsg), 0)) := by
  refine ⟨?_, ?_, ?_, ?_, ?_, ?_⟩
  · intro o s name hn hne hnp h3
    fin_cases hn <;>
      first
        | exact absurd rfl hne
        | simp_all [readHA, StateHA.tempk_get, StateHA.press_get, StateHA.relhum_get,
            StateHA.humrat_get, StateHA.wetbulb_get, StateHA.dewpoint_get, StateHA.vol_get,
            StateHA.enthalpy_get, StateHA.entropy_get, StateHA.density_get, StateHA.cp_get,
            StateHA.viscosity_get, StateHA.conductivity_get, StateHA.prandtl_get,
            haGetterStd, haAttr]
  · intro o s h1 h2 h3 ht
    have hu := haGetterStd_unpinned o s "tempk" "T" s.tempk h2 h3
    rw [ht] at hu
    simp [readHA, StateHA.tempc_get, StateHA.tempk_get, h1, h2, hu, ht]
  · intro o s name hn hnp h2
    fin_cases hn <;>
      simp_all [readProps, StateProps.tempk_get, StateProps.press_get, StateProps.dens_get,
        propsGetterA, propsAttr]
  · intro o s name hn hnp h2
    fin_cases hn <;>
      simp_all [readProps, StateProps.quality_get, StateProps.enthalpy_get,
        StateProps.entropy_get, StateProps.cp_get, StateProps.cv_get, propsGetterB]
  · intro o s hnp h2 hd0
    have hd := dens_get_slot o s h2
    rcases hde : s.dens with _ | d
    · simp [readProps, StateProps.vol_get, hd, hde]
    · have hdz : ¬ d = 0 := fun h => hd0 (by rw [hde, h])
      simp [readProps, StateProps.vol_get, hd, hde, hdz]
  · intro o s h1 h2 h3 ht
    have hu := propsGetterA_unpinned o s "tempk" "T" s.tempk h2 h3
    rw [ht] at hu
    simp [readProps, StateProps.tempc_get, StateProps.tempk_get, h1, h2, hu, ht]

/-- Witness for C8 as amended: reading the non-pinned press of the one-pin
state s1ha returns its slot (None) without raising. -/
theorem c8_witness :
    ("press" ∈ haNames ∧ "press" ∉ s1ha.constraints_set ∧
      s1ha.constraints_set.length ≠ 3) ∧
    readHA oracleOneHA s1ha "press" = (.ok (haAttr s1ha "press"), 0) :=
  ⟨⟨by decide, by decide, by decide⟩,
   c8_theorem.1 oracleOneHA s1ha "press" (by decide) (by decide) (by decide) (by decide)⟩

/-- Claim C10: the vol setter of StateProps records the name vol in the
constraint set although vol has no entry in the prop_map of StateProps;
consequently on the complete state p2bProps (vol and press pinned) every
read of a non-pinned derived property raises KeyError for vol out of the
oracle-argument construction of get_prop, before any oracle call, instead
of returning a value or a domain error. -/
theorem c10_theorem : ∀ (o : OracleProps),
    lookupMap propsPropMap "vol" = none ∧
    ((state_setter_PROPS wProps "vol" (.num 2)).1).constraints_set = ["vol"] ∧
    p2bProps.constraints_set = ["press", "vol"] ∧
    readProps o p2bProps "tempk" = (.error (.keyError "vol"), 0) ∧
    readProps o p2bProps "tempc" = (.error (.keyError "vol"), 0) ∧
    readProps o p2bProps "dens" = (.error (.keyError "vol"), 0) ∧
    readProps o p2bProps "quality" = (.error (.keyError "vol"), 0) ∧
    readProps o p2bProps "enthalpy" = (.error (.keyError "vol"), 0) ∧
    readProps o p2bProps "entropy" = (.error (.keyError "vol"), 0) ∧
    readProps o p2bProps "cp" = (.error (.keyError "vol"), 0) ∧
    readProps o p2bProps "cv" = (.error (.keyError "vol"), 0) := by
  intro o
  refine ⟨by decide, ?_, by decide, ?_, ?_, ?_, ?_, ?_, ?_, ?_, ?_⟩
  · rw [p1Props_reach]; rfl
  all_goals
    simp [readProps, StateProps.tempk_get, StateProps.tempc_get, StateProps.press_get,
      StateProps.dens_get, StateProps.quality_get, StateProps.enthalpy_get,
      StateProps.entropy_get, StateProps.cp_get, StateProps.cv_get, propsGetterA,
      propsGetterB, StateProps.get_prop, buildTrial, lookupMap, propsAttr, propsPropMap,
      p2bProps, p1Props, wProps, freshProps, String.reduceEq]
